import Mathlib

/-!
Verification development for the order-execution-engine repository.

The TypeScript sources are shallowly embedded: prices and amounts are
modelled as rationals, fallible calls as Except values, and the BullMQ
worker scheduling as an explicit labelled transition system. Wall-clock
measurement fields (routingTime, executionTime, timestamps on quotes)
and randomness sources are not modelled; randomly drawn values (slippage,
venue outcome) appear as explicit parameters ranging over the interval
the source draws them from.
-/

namespace OE

/-- DEXProvider enum from src/types (part_003). -/
inductive DEXProvider where
  | raydium
  | meteora
deriving DecidableEq, Repr

/-- OrderStatus enum from src/types (part_003). -/
inductive OrderStatus where
  | pending
  | processing
  | routing
  | executing
  | completed
  | failed
  | cancelled
deriving DecidableEq, Repr

/-- String value of each OrderStatus enum member. -/
def statusName : OrderStatus → String
  | OrderStatus.pending => "pending"
  | OrderStatus.processing => "processing"
  | OrderStatus.routing => "routing"
  | OrderStatus.executing => "executing"
  | OrderStatus.completed => "completed"
  | OrderStatus.failed => "failed"
  | OrderStatus.cancelled => "cancelled"

/-- Order side. The source uses the union type of the two string literals. -/
inductive Side where
  | buy
  | sell
deriving DecidableEq, Repr

/-- String value of each DEXProvider enum member. -/
def providerName : DEXProvider → String
  | DEXProvider.raydium => "raydium"
  | DEXProvider.meteora => "meteora"

/-- DEXRoute from src/types: one venue quote. The timestamp field (a Date)
is not modelled; confidence is kept as a rational. -/
structure DEXRoute where
  provider : DEXProvider
  price : Rat
  liquidity : Rat
  estimatedGas : Nat
  confidence : Rat
deriving DecidableEq, Repr

/-- RoutingResult from src/types. The wall-clock routingTime field is not
modelled. -/
structure RoutingResult where
  bestRoute : DEXRoute
  alternatives : List DEXRoute
  totalRoutes : Nat
deriving DecidableEq, Repr

/-- Order from src/types. Execution-detail fields live in ExecutionResult
and the database row; timestamps are not modelled. -/
structure Order where
  id : String
  userId : String
  baseToken : String
  quoteToken : String
  amount : Rat
  side : Side
  status : OrderStatus
deriving DecidableEq, Repr

/-- ExecutionResult from src/types. The wall-clock executionTime field is
not modelled. -/
structure ExecutionResult where
  success : Bool
  orderId : String
  executionPrice : Option Rat
  executedAmount : Option Rat
  transactionHash : Option String
  gasUsed : Option Nat
  errorMessage : Option String
deriving DecidableEq, Repr

/-- JS Promise.all over two already-settled promises: it resolves with the
pair when both resolve, and rejects as soon as either rejects. In the
shallow embedding each venue call has already settled to an Except value;
rejection of either input rejects the whole, matching dex-router.service.ts
line 47. -/
def promiseAll2 {α β : Type} (a : Except String α) (b : Except String β) :
    Except String (α × β) :=
  match a, b with
  | Except.ok x, Except.ok y => Except.ok (x, y)
  | Except.error e, _ => Except.error e
  | Except.ok _, Except.error e => Except.error e

/-- One comparison step of the JS reduce in findBestRoute lines 57-59:
for buy the accumulator is replaced only when the current price is
strictly lower, for sell only when strictly higher. -/
def betterRoute (side : Side) (best current : DEXRoute) : DEXRoute :=
  match side with
  | Side.buy => if current.price < best.price then current else best
  | Side.sell => if current.price > best.price then current else best

/-- JS Array.reduce without an initial value: the first element seeds the
accumulator and the rest are folded left to right. -/
def reduceRoutes (side : Side) (h : DEXRoute) (t : List DEXRoute) : DEXRoute :=
  t.foldl (betterRoute side) h

/-- findBestRoute from dex-router.service.ts lines 34-79. The two venue
quote calls (getRaydiumQuote first, getMeteraQuote second, always in this
argument order regardless of completion time) are taken as settled Except
inputs; Promise.all combines them, the reduce picks the best route, and
any rejection is rethrown with the prefixed message from line 76. -/
def findBestRoute (raydiumQuote meteoraQuote : Except String DEXRoute)
    (side : Side) : Except String RoutingResult :=
  match promiseAll2 raydiumQuote meteoraQuote with
  | Except.error e => Except.error ("Failed to find route: " ++ e)
  | Except.ok (r, m) =>
      let routes : List DEXRoute := [r, m]
      let bestRoute := reduceRoutes side r [m]
      Except.ok
        { bestRoute := bestRoute
          alternatives := routes.filter
            (fun route => route.provider != bestRoute.provider)
          totalRoutes := routes.length }

/-- A concrete Raydium quote used in closed counterexample statements. -/
def sampleRaydium : DEXRoute :=
  { provider := DEXProvider.raydium
    price := 143
    liquidity := 60000
    estimatedGas := 5000
    confidence := 1 }

/-- A concrete Meteora quote used in closed witness statements. -/
def sampleMeteora : DEXRoute :=
  { provider := DEXProvider.meteora
    price := 142
    liquidity := 40000
    estimatedGas := 4500
    confidence := 1 }

/-- Success payload built inside the try block of executeOrder
(dex-router.service.ts lines 174-190): execution price with slippage
applied against the trader, executed amount reduced by half the slippage. -/
structure FillData where
  executionPrice : Rat
  executedAmount : Rat
  transactionHash : String
  gasUsed : Nat
deriving DecidableEq, Repr

/-- Slippage direction from line 176: buy pays more, sell receives less. -/
def slippageDirection : Side → Int
  | Side.buy => 1
  | Side.sell => -1

/-- Execution price from line 177. -/
def executionPriceOf (side : Side) (quotePrice s : Rat) : Rat :=
  quotePrice * (1 + s * ((slippageDirection side : Int) : Rat))

/-- Executed amount from line 180. -/
def executedAmountOf (amount s : Rat) : Rat :=
  amount * (1 - s * (1 / 2))

/-- The opaque settlement token produced by generateMockTxHash; the random
88-character base58 string is abstracted to one opaque value. -/
def mockTxHash : String := "mock-tx-hash"

/-- The try block of executeOrder, lines 162-194. The 5 percent random
failure draw appears as the shouldFail parameter; the random slippage draw
from the interval 0.001 to 0.003 appears as the parameter s. A failure is
a thrown error, modelled as Except.error. -/
def executeOrderBody (order : Order) (route : DEXRoute) (shouldFail : Bool)
    (s : Rat) : Except String FillData :=
  if shouldFail then
    Except.error (providerName route.provider ++
      " execution failed: Insufficient liquidity")
  else
    Except.ok
      { executionPrice := executionPriceOf order.side route.price s
        executedAmount := executedAmountOf order.amount s
        transactionHash := mockTxHash
        gasUsed := route.estimatedGas }

/-- executeOrder, lines 157-207: the catch block converts any thrown error
into a structured result with success set to false and the error text in
errorMessage, so the function is total and never rethrows. -/
def executeOrder (order : Order) (route : DEXRoute) (shouldFail : Bool)
    (s : Rat) : ExecutionResult :=
  match executeOrderBody order route shouldFail s with
  | Except.ok fill =>
      { success := true
        orderId := order.id
        executionPrice := some fill.executionPrice
        executedAmount := some fill.executedAmount
        transactionHash := some fill.transactionHash
        gasUsed := some fill.gasUsed
        errorMessage := none }
  | Except.error m =>
      { success := false
        orderId := order.id
        executionPrice := none
        executedAmount := none
        transactionHash := none
        gasUsed := none
        errorMessage := some m }

/-- User-visible and persisted emissions of one processOrder run
(queue.service.ts lines 186-272). statusUpdate is the updateOrderStatus
helper (database write plus websocket update, lines 284-302); dbFailedWrite
is the direct database.updateOrderStatus call at line 259; wsFailedUpdate
is the extra websocket failure notification at lines 262-268; completionMsg
is sendOrderCompletion at lines 233-240. -/
inductive Emit where
  | statusUpdate (status : OrderStatus) (message : String)
  | dbFailedWrite (errorMessage : String)
  | wsFailedUpdate (message : String)
  | completionMsg
deriving DecidableEq, Repr

/-- The catch block of processOrder, lines 250-271: on any failure the
order is marked FAILED in the database and over the websocket, then the
error is rethrown for the BullMQ retry mechanism. These emissions happen
on every failed attempt, terminal or not. -/
def failEmits (msg : String) : List Emit :=
  [Emit.statusUpdate OrderStatus.failed ("Execution failed: " ++ msg),
   Emit.dbFailedWrite msg,
   Emit.wsFailedUpdate ("Order failed: " ++ msg)]

/-- One attempt of processOrder, lines 186-272, as the pair of the list of
emissions and a success flag (false means the attempt threw and BullMQ may
retry). The routing call result and the executor behaviour for this
attempt are inputs. -/
def processOrderAttempt (routing : Except String RoutingResult)
    (execute : RoutingResult → ExecutionResult) : List Emit × Bool :=
  let pre : List Emit :=
    [Emit.statusUpdate OrderStatus.processing "Order processing started",
     Emit.statusUpdate OrderStatus.routing "Comparing prices across DEXes"]
  match routing with
  | Except.error msg => (pre ++ failEmits msg, false)
  | Except.ok decision =>
      let r := execute decision
      if r.success then
        (pre ++
          [Emit.statusUpdate OrderStatus.executing
             ("Executing order on " ++ providerName decision.bestRoute.provider),
           Emit.statusUpdate OrderStatus.completed "Order executed successfully",
           Emit.completionMsg], true)
      else
        (pre ++
          [Emit.statusUpdate OrderStatus.executing
             ("Executing order on " ++ providerName decision.bestRoute.provider)] ++
          failEmits (r.errorMessage.getD "Execution failed"), false)

/-- Job retry cap from addOrderToQueue, queue.service.ts line 145. -/
def jobAttempts : Nat := 3

/-- One time-unit of the spec equals 1000 milliseconds of the source. -/
def timeUnitMs : Nat := 1000

/-- BullMQ built-in exponential backoff with the delay 2000 configured at
queue.service.ts lines 146-149: the wait before the next attempt after
attemptsMade failed attempts is 2000 times 2 to the power attemptsMade
minus one, in milliseconds. -/
def backoffDelayMs (attemptsMade : Nat) : Nat :=
  2000 * 2 ^ (attemptsMade - 1)

/-- BullMQ retry driver: run attempts (each given by its zero-based index)
until one succeeds or the fuel (the configured attempts option) runs out,
collecting each attempt. -/
def runJob (fuel idx : Nat) (attempt : Nat → List Emit × Bool) :
    List (List Emit × Bool) :=
  match fuel with
  | 0 => []
  | Nat.succ f =>
      let r := attempt idx
      if r.2 then [r] else r :: runJob f (idx + 1) attempt

/-- A queued job as configured by addOrderToQueue: at most jobAttempts
attempts, starting from attempt index zero. -/
def processJobTrace (attempt : Nat → List Emit × Bool) :
    List (List Emit × Bool) :=
  runJob jobAttempts 0 attempt

/-- True on the emissions that present the order as failed to the user or
to the durable store. -/
def isFailureEmit : Emit → Bool
  | Emit.statusUpdate OrderStatus.failed _ => true
  | Emit.dbFailedWrite _ => true
  | Emit.wsFailedUpdate _ => true
  | _ => false

/-- Request body of POST /orders/execute (order.controller.ts lines 23-29). -/
structure OrderRequest where
  userId : String
  baseToken : String
  quoteToken : String
  amount : Rat
  side : Side
deriving DecidableEq, Repr

/-- Supported token symbols, order.controller.ts line 113. -/
def validTokens : List String := ["SOL", "USDC", "USDT", "BONK", "RAY", "ORCA"]

/-- JS String.prototype.toUpperCase restricted to the ASCII symbols used
for token names. -/
def upTok (s : String) : String := String.mk (s.data.map Char.toUpper)

/-- Outcome of the POST /orders/execute handler: either an HTTP error
reply or a 201 acknowledgment carrying the created order. -/
inductive IntakeOutcome where
  | rejected (httpStatus : Nat) (error : String) (message : String)
  | accepted (order : Order) (httpStatus : Nat) (ackStatus : String)
deriving DecidableEq, Repr

/-- The POST /orders/execute handler, order.controller.ts lines 58-167.
The Fastify body schema (lines 63-78) runs first and rejects with 400 when
amount is below the minimum 0.0001 or above the maximum 1000000; then the
handler checks in source order: amount above 1000000, amount below 0.0001,
amount non-positive (all three unreachable after the schema), unsupported
token symbols on the uppercased names, equal uppercased symbols. Otherwise
the order object of lines 134-146 is built with a fresh identifier and
pending status and acknowledged with HTTP 201 and status queued. -/
def handleExecuteOrder (req : OrderRequest) (orderId : String) : IntakeOutcome :=
  if req.amount < mkRat 1 10000 ∨ req.amount > 1000000 then
    IntakeOutcome.rejected 400 "Bad Request" "body/amount does not match schema"
  else if req.amount > 1000000 then
    IntakeOutcome.rejected 400 "Amount too large" "Maximum order amount is 1,000,000"
  else if req.amount < mkRat 1 10000 then
    IntakeOutcome.rejected 400 "Amount too small" "Minimum order amount is 0.0001"
  else if req.amount ≤ 0 then
    IntakeOutcome.rejected 400 "Invalid amount" "Amount must be greater than 0"
  else if ¬ (upTok req.baseToken ∈ validTokens ∧ upTok req.quoteToken ∈ validTokens) then
    IntakeOutcome.rejected 400 "Invalid token pair" "One or both tokens are not supported"
  else if upTok req.baseToken = upTok req.quoteToken then
    IntakeOutcome.rejected 400 "Invalid trading pair" "Base token and quote token cannot be the same"
  else
    IntakeOutcome.accepted
      { id := orderId
        userId := req.userId
        baseToken := upTok req.baseToken
        quoteToken := upTok req.quoteToken
        amount := req.amount
        side := req.side
        status := OrderStatus.pending } 201 "queued"

/-- The order handed to the processing pipeline: an accepted intake calls
createOrder and addOrderToQueue with the built order (lines 149-153); a
rejected intake returns before any of that. -/
def pipelineEntry : IntakeOutcome → Option Order
  | IntakeOutcome.accepted o _ _ => some o
  | IntakeOutcome.rejected _ _ _ => none

/-- A row of the orders table as written by the database service. The
created_at, updated_at and type columns are not modelled. -/
structure OrderRow where
  id : String
  userId : String
  baseToken : String
  quoteToken : String
  amount : Rat
  side : Side
  status : OrderStatus
  errorMessage : Option String
deriving DecidableEq, Repr

/-- createOrder, database.service.ts lines 30-64: the amount column value
is Math.min of the order amount and 999999 (line 46, the cap comment). -/
def createOrder (o : Order) : OrderRow :=
  { id := o.id
    userId := o.userId
    baseToken := o.baseToken
    quoteToken := o.quoteToken
    amount := min o.amount 999999
    side := o.side
    status := o.status
    errorMessage := none }

/-- Payload of queue.add in addOrderToQueue, queue.service.ts lines
137-142: the order identifier and the unchanged order object. -/
structure JobData where
  orderId : String
  orderData : Order
deriving DecidableEq, Repr

/-- addOrderToQueue, queue.service.ts lines 134-171, restricted to the job
payload it enqueues. -/
def addOrderToQueue (o : Order) : JobData :=
  { orderId := o.id, orderData := o }

/-- A row of the order_events audit table, scripts/001_initial_schema.sql
and database.service.ts lines 103-107. -/
structure OrderEvent where
  orderId : String
  eventType : String
  oldStatus : OrderStatus
  newStatus : OrderStatus
  message : String
deriving DecidableEq, Repr

/-- The durable store touched by updateOrderStatus: the orders table and
the order_events audit table. -/
structure DB where
  orders : List OrderRow
  events : List OrderEvent
deriving DecidableEq, Repr

/-- The UPDATE of lines 95-100 applied to the orders table. -/
def applyStatusUpdate (rows : List OrderRow) (orderId : String)
    (newStatus : OrderStatus) (errorMessage : Option String) : List OrderRow :=
  rows.map (fun r =>
    if r.id = orderId then
      { r with status := newStatus, errorMessage := errorMessage }
    else r)

/-- updateOrderStatus, database.service.ts lines 72-119, as a transaction:
BEGIN, SELECT the current status (throw when the order does not exist),
UPDATE the row, INSERT the audit event, COMMIT; any failure triggers
ROLLBACK and the error is rethrown. The failUpdate and failInsert flags
model infrastructure failures of the UPDATE and INSERT queries. The result
is the committed database state paired with the raised error, if any; on
error the committed state is the pre-transaction snapshot. -/
def updateOrderStatus (db : DB) (orderId : String) (newStatus : OrderStatus)
    (errorMessage : Option String) (failUpdate failInsert : Bool) :
    DB × Option String :=
  match db.orders.find? (fun r => r.id = orderId) with
  | none => (db, some ("Order " ++ orderId ++ " not found"))
  | some row =>
      if failUpdate then (db, some "update query failed")
      else
        let txn1 : DB :=
          { db with orders := applyStatusUpdate db.orders orderId newStatus errorMessage }
        if failInsert then (db, some "insert query failed")
        else
          let ev : OrderEvent :=
            { orderId := orderId
              eventType := "status_change"
              oldStatus := row.status
              newStatus := newStatus
              message := errorMessage.getD ("Status changed to " ++ statusName newStatus) }
          ({ txn1 with events := txn1.events ++ [ev] }, none)

/-- Worker options passed to the BullMQ Worker in initializeWorker,
queue.service.ts lines 105-116: concurrency, limiter max and limiter
duration in milliseconds. -/
structure WorkerOpts where
  concurrency : Nat
  limiterMax : Nat
  limiterDurationMs : Nat
deriving DecidableEq, Repr

/-- The options of queue.service.ts lines 108-115: concurrency 10,
limiter max 100 per duration 60000 milliseconds. -/
def workerOpts : WorkerOpts :=
  { concurrency := 10, limiterMax := 100, limiterDurationMs := 60000 }

/-- Modelled from the spec: the BullMQ scheduling loop that enforces the
worker options is library code absent from this repository, so it is
modelled from the spec as a labelled transition system. A state records
the jobs currently being processed (each occupying one of the worker
slots, its order in the Processing, Routing or Executing states), the
timestamps of all processing starts, and the current time in
milliseconds. -/
structure SchedState where
  active : Nat
  starts : List Nat
  now : Nat
deriving DecidableEq, Repr

/-- Number of recorded starts inside the rolling window of the given
duration ending at time t. -/
def startsInWindow (starts : List Nat) (t duration : Nat) : Nat :=
  (starts.filter (fun s => s ≤ t ∧ t < s + duration)).length

/-- Modelled from the spec: one scheduler transition. A processing start
requires a free worker slot (active below concurrency) and the rate
limiter (fewer than limiterMax starts in the window ending now); a finish
releases a slot; time only moves forward. -/
inductive SchedStep (opts : WorkerOpts) : SchedState → SchedState → Prop
  | start (σ : SchedState)
      (hslot : σ.active < opts.concurrency)
      (hrate : startsInWindow σ.starts σ.now opts.limiterDurationMs < opts.limiterMax) :
      SchedStep opts σ
        { active := σ.active + 1, starts := σ.now :: σ.starts, now := σ.now }
  | finish (σ : SchedState) (h : 0 < σ.active) :
      SchedStep opts σ { σ with active := σ.active - 1 }
  | tick (σ : SchedState) (d : Nat) :
      SchedStep opts σ { σ with now := σ.now + d }

/-- The initial scheduler state: no active jobs, no starts, time zero. -/
def initState : SchedState := { active := 0, starts := [], now := 0 }

/-- States reachable from the initial state under the given options. -/
inductive Reach (opts : WorkerOpts) : SchedState → Prop
  | init : Reach opts initState
  | step {σ τ : SchedState} : Reach opts σ → SchedStep opts σ τ → Reach opts τ

/-- A concrete order used in closed witness and counterexample statements. -/
def sampleOrder : Order :=
  { id := "order-1"
    userId := "user-1"
    baseToken := "SOL"
    quoteToken := "USDC"
    amount := mkRat 5 2
    side := Side.buy
    status := OrderStatus.pending }

/-- The routing decision findBestRoute produces for the two sample quotes
on a buy: Meteora has the lower price 142 against 142.5. -/
def sampleBuyDecision : RoutingResult :=
  { bestRoute := sampleMeteora
    alternatives := [sampleRaydium]
    totalRoutes := 2 }

/-- An attempt sequence whose first attempt fails in execution and whose
second succeeds, used to evaluate the retry pipeline concretely. -/
def retriedAttempts : Nat → List Emit × Bool := fun n =>
  if n = 0 then
    processOrderAttempt (Except.ok sampleBuyDecision)
      (fun _ => executeOrder sampleOrder sampleMeteora true (1 / 500))
  else
    processOrderAttempt (Except.ok sampleBuyDecision)
      (fun _ => executeOrder sampleOrder sampleMeteora false (1 / 500))

/-- An attempt sequence in which every attempt fails. -/
def allFailAttempts : Nat → List Emit × Bool := fun _ => ([], false)

/-- A request below the schema minimum amount but satisfying every intake
condition the spec lists. -/
def smallReq : OrderRequest :=
  { userId := "user-1"
    baseToken := "SOL"
    quoteToken := "USDC"
    amount := mkRat 1 20000
    side := Side.buy }

/-- A well-formed request accepted by intake. -/
def goodReq : OrderRequest :=
  { userId := "user-1"
    baseToken := "sol"
    quoteToken := "USDC"
    amount := mkRat 5 2
    side := Side.buy }

/-- A request at the exact intake ceiling of 1000000. -/
def bigReq : OrderRequest :=
  { userId := "user-1"
    baseToken := "SOL"
    quoteToken := "USDC"
    amount := 1000000
    side := Side.buy }

/-- The order intake builds for bigReq. -/
def bigOrder : Order :=
  { id := "oid-3"
    userId := "user-1"
    baseToken := "SOL"
    quoteToken := "USDC"
    amount := 1000000
    side := Side.buy
    status := OrderStatus.pending }

/-- A database containing no orders. -/
def emptyDB : DB := { orders := [], events := [] }

/-- Inductive invariant for the scheduler: the slot bound, no start
recorded in the future, and the rolling-window bound for every window
end. -/
def SchedInv (opts : WorkerOpts) (σ : SchedState) : Prop :=
  σ.active ≤ opts.concurrency ∧
  (∀ s ∈ σ.starts, s ≤ σ.now) ∧
  (∀ t, startsInWindow σ.starts t opts.limiterDurationMs ≤ opts.limiterMax)

/-! ## Theorems -/

/-- C1 counterexample: with Raydium answering (a partial success) and
Meteora rejecting, findBestRoute fails instead of returning a decision,
because Promise.all rejects as soon as one venue call rejects. -/
theorem C1_counterexample :
    (∃ q, (Except.ok sampleRaydium : Except String DEXRoute) = Except.ok q) ∧
    findBestRoute (Except.ok sampleRaydium) (Except.error "venue timeout") Side.buy
      = Except.error "Failed to find route: venue timeout" :=
  ⟨⟨sampleRaydium, rfl⟩, rfl⟩

/-- C1 (amended): findBestRoute returns a RoutingDecision exactly when
both venue quote calls succeed; any single venue failure makes the whole
call fail, since the quotes are combined with Promise.all. -/
theorem C1_routing_requires_both (rq mq : Except String DEXRoute) (side : Side) :
    (∃ d, findBestRoute rq mq side = Except.ok d) ↔
      (∃ r, rq = Except.ok r) ∧ (∃ m, mq = Except.ok m) := by
  cases rq <;> cases mq <;>
    simp [findBestRoute, promiseAll2]

/-- C2: for two venue quotes the buy side selects the lowest price, the
sell side the highest, and on an exact price tie the first quote in the
evaluated list (Raydium, passed first to Promise.all) wins. -/
theorem C2_best_route_selection (rq mq : DEXRoute) (side : Side)
    (d : RoutingResult)
    (h : findBestRoute (Except.ok rq) (Except.ok mq) side = Except.ok d) :
    (side = Side.buy → d.bestRoute.price = min rq.price mq.price) ∧
    (side = Side.sell → d.bestRoute.price = max rq.price mq.price) ∧
    (rq.price = mq.price → d.bestRoute = rq) := by
  have hd : d.bestRoute = betterRoute side rq mq := by
    simp [findBestRoute, promiseAll2, reduceRoutes] at h
    rw [← h]
  rw [hd]
  refine ⟨?_, ?_, ?_⟩
  · rintro rfl
    by_cases hlt : mq.price < rq.price
    · simp [betterRoute, hlt, min_eq_right (le_of_lt hlt)]
    · simp [betterRoute, hlt, min_eq_left (le_of_not_lt hlt)]
  · rintro rfl
    by_cases hgt : mq.price > rq.price
    · simp [betterRoute, hgt, max_eq_right (le_of_lt hgt)]
    · simp [betterRoute, hgt, max_eq_left (le_of_not_lt hgt)]
  · intro htie
    cases side <;> simp [betterRoute, htie]

/-- C2 witness: the theorem applied to the two sample quotes on a buy. -/
theorem C2_best_route_selection_witness :
    (Side.buy = Side.buy → sampleBuyDecision.bestRoute.price
        = min sampleRaydium.price sampleMeteora.price) ∧
    (Side.buy = Side.sell → sampleBuyDecision.bestRoute.price
        = max sampleRaydium.price sampleMeteora.price) ∧
    (sampleRaydium.price = sampleMeteora.price →
        sampleBuyDecision.bestRoute = sampleRaydium) :=
  C2_best_route_selection sampleRaydium sampleMeteora Side.buy
    sampleBuyDecision rfl

/-- Helper: a retry run never performs more attempts than its fuel. -/
theorem runJob_length_le (fuel idx : Nat) (attempt : Nat → List Emit × Bool) :
    (runJob fuel idx attempt).length ≤ fuel := by
  induction fuel generalizing idx with
  | zero => simp [runJob]
  | succ f ih =>
      simp only [runJob]
      split
      · simp
      · simpa using Nat.succ_le_succ (ih (idx + 1))

/-- Helper: when every attempt fails, the run uses exactly its fuel. -/
theorem runJob_length_of_all_fail (fuel idx : Nat)
    (attempt : Nat → List Emit × Bool)
    (h : ∀ n, (attempt n).2 = false) :
    (runJob fuel idx attempt).length = fuel := by
  induction fuel generalizing idx with
  | zero => simp [runJob]
  | succ f ih => simp [runJob, h idx, ih (idx + 1)]

/-- C3 evaluation: for a job whose first attempt fails in execution and is
then retried (a second attempt runs and succeeds, so the first failure was
not terminal), the first attempt already emits the Failed status update,
the Failed database write and the failure websocket notification, because
the catch block of processOrder runs on every failed attempt. -/
theorem C3_intermediate_attempt_shows_failed :
    (processJobTrace retriedAttempts).length = 2 ∧
    ((processJobTrace retriedAttempts).getD 0 ([], true)).2 = false ∧
    ((processJobTrace retriedAttempts).getD 0 ([], true)).1.any isFailureEmit = true ∧
    ((processJobTrace retriedAttempts).getD 1 ([], false)).2 = true := by
  decide

/-- C4: a job configured by addOrderToQueue performs at most 3 attempts
(a fourth never occurs), exactly 3 when every attempt fails, and the
backoff before each retry is exponential with base delay 2 time-units and
multiplier 2. -/
theorem C4_retry_policy (attempt : Nat → List Emit × Bool) :
    (processJobTrace attempt).length ≤ 3 ∧
    ((∀ n, (attempt n).2 = false) → (processJobTrace attempt).length = 3) ∧
    backoffDelayMs 1 = 2 * timeUnitMs ∧
    (∀ n, backoffDelayMs (n + 2) = 2 * backoffDelayMs (n + 1)) := by
  refine ⟨runJob_length_le jobAttempts 0 attempt,
    fun h => runJob_length_of_all_fail jobAttempts 0 attempt h, rfl, fun n => ?_⟩
  have h1 : n + 2 - 1 = n + 1 := rfl
  have h2 : n + 1 - 1 = n := rfl
  simp only [backoffDelayMs, h1, h2, pow_succ]
  ring

/-- C4 witness: the theorem applied to the all-failing attempt sequence. -/
theorem C4_retry_policy_witness :
    (processJobTrace allFailAttempts).length = 3 :=
  (C4_retry_policy allFailAttempts).2.1 (fun _ => rfl)

/-- C5: on a successful execution the realized price is strictly above the
quote on a buy and strictly below on a sell, the realized amount is at
most the requested amount, and the realized price deviates from the quote
by at most 0.3 percent, whenever the slippage draw lies in the interval
the source draws it from. -/
theorem C5_execution_bounds (order : Order) (route : DEXRoute) (s : Rat)
    (hp : 0 < route.price) (ha : 0 < order.amount)
    (hs1 : 1 / 1000 ≤ s) (hs2 : s ≤ 3 / 1000) :
    ∃ p a, (executeOrder order route false s).executionPrice = some p ∧
      (executeOrder order route false s).executedAmount = some a ∧
      (order.side = Side.buy → route.price < p) ∧
      (order.side = Side.sell → p < route.price) ∧
      a ≤ order.amount ∧
      |p - route.price| ≤ (3 / 1000) * route.price := by
  refine ⟨executionPriceOf order.side route.price s,
    executedAmountOf order.amount s, rfl, rfl, ?_, ?_, ?_, ?_⟩
  · intro hside
    simp only [executionPriceOf, hside, slippageDirection]
    push_cast
    nlinarith
  · intro hside
    simp only [executionPriceOf, hside, slippageDirection]
    push_cast
    nlinarith
  · simp only [executedAmountOf]
    nlinarith
  · rw [abs_le]
    cases hside : order.side <;>
      simp only [executionPriceOf, slippageDirection] <;>
      push_cast <;> constructor <;> nlinarith

/-- C5 witness: the theorem applied to the sample order and the sample
Meteora quote with a slippage draw of 0.002. -/
theorem C5_execution_bounds_witness :
    (0 < sampleMeteora.price ∧ 0 < sampleOrder.amount ∧
      (1 : Rat) / 1000 ≤ 1 / 500 ∧ (1 : Rat) / 500 ≤ 3 / 1000) ∧
    ∃ p a,
      (executeOrder sampleOrder sampleMeteora false (1 / 500)).executionPrice = some p ∧
      (executeOrder sampleOrder sampleMeteora false (1 / 500)).executedAmount = some a ∧
      (sampleOrder.side = Side.buy → sampleMeteora.price < p) ∧
      (sampleOrder.side = Side.sell → p < sampleMeteora.price) ∧
      a ≤ sampleOrder.amount ∧
      |p - sampleMeteora.price| ≤ (3 / 1000) * sampleMeteora.price :=
  ⟨⟨by norm_num [sampleMeteora], by norm_num [sampleOrder, mkRat], by norm_num, by norm_num⟩,
    C5_execution_bounds sampleOrder sampleMeteora (1 / 500)
      (by norm_num [sampleMeteora]) (by norm_num [sampleOrder, mkRat])
      (by norm_num) (by norm_num)⟩

/-- C6: executeOrder is a total function (a thrown failure inside the try
block is caught, never rethrown), the caught error text is returned as the
structured errorMessage with success false, and a failed result always
carries a non-empty errorMessage. -/
theorem C6_structured_failure (order : Order) (route : DEXRoute)
    (shouldFail : Bool) (s : Rat) :
    (∀ e, executeOrderBody order route shouldFail s = Except.error e →
      (executeOrder order route shouldFail s).success = false ∧
      (executeOrder order route shouldFail s).errorMessage = some e) ∧
    ((executeOrder order route shouldFail s).success = false →
      ∃ m, (executeOrder order route shouldFail s).errorMessage = some m ∧ m ≠ "") := by
  cases shouldFail with
  | false =>
      refine ⟨fun e he => by simp [executeOrderBody] at he, fun hs => ?_⟩
      simp [executeOrder, executeOrderBody] at hs
  | true =>
      refine ⟨fun e he => ?_, fun _ => ?_⟩
      · simp only [executeOrderBody, if_pos] at he
        cases he
        exact ⟨rfl, rfl⟩
      · refine ⟨providerName route.provider ++ " execution failed: Insufficient liquidity",
          rfl, ?_⟩
        cases hprov : route.provider <;> simp [providerName]

/-- C6 witness: the theorem applied to a concrete failing execution. -/
theorem C6_structured_failure_witness :
    (executeOrder sampleOrder sampleMeteora true (1 / 500)).success = false ∧
    (executeOrder sampleOrder sampleMeteora true (1 / 500)).errorMessage
      = some "meteora execution failed: Insufficient liquidity" :=
  (C6_structured_failure sampleOrder sampleMeteora true (1 / 500)).1 _ rfl

/-- C7 counterexample: a request for amount 0.00005 of SOL versus USDC
satisfies every condition the claim lists for acceptance (positive amount
at most the ceiling, supported distinct tokens), yet intake rejects it at
the schema minimum of 0.0001 and it never enters the pipeline. -/
theorem C7_counterexample :
    (0 < smallReq.amount ∧ smallReq.amount ≤ 1000000 ∧
      smallReq.baseToken ∈ validTokens ∧ smallReq.quoteToken ∈ validTokens ∧
      smallReq.baseToken ≠ smallReq.quoteToken) ∧
    handleExecuteOrder smallReq "oid-1"
      = IntakeOutcome.rejected 400 "Bad Request" "body/amount does not match schema" ∧
    pipelineEntry (handleExecuteOrder smallReq "oid-1") = none := by
  decide

/-- C7 (amended): intake accepts exactly the requests whose amount lies
between the schema minimum 0.0001 and the ceiling 1000000 and whose
uppercased symbols are both supported and distinct; an accepted request
is acknowledged with 201, a generated identifier, queued status and a
pending order entering the pipeline; every rejection is a 400 client
error and enters no pipeline. -/
theorem C7_intake_validation (req : OrderRequest) (oid : String) :
    ((∃ o, handleExecuteOrder req oid = IntakeOutcome.accepted o 201 "queued" ∧
        o.id = oid ∧ o.status = OrderStatus.pending ∧ o.amount = req.amount ∧
        pipelineEntry (handleExecuteOrder req oid) = some o) ↔
      (mkRat 1 10000 ≤ req.amount ∧ req.amount ≤ 1000000 ∧
       upTok req.baseToken ∈ validTokens ∧ upTok req.quoteToken ∈ validTokens ∧
       upTok req.baseToken ≠ upTok req.quoteToken)) ∧
    (∀ st e m, handleExecuteOrder req oid = IntakeOutcome.rejected st e m →
      st = 400 ∧ pipelineEntry (handleExecuteOrder req oid) = none) := by
  simp only [handleExecuteOrder]
  by_cases h1 : req.amount < mkRat 1 10000 ∨ req.amount > 1000000
  · rw [if_pos h1]
    refine ⟨iff_of_false ?_ ?_, ?_⟩
    · rintro ⟨o, h, -⟩
      cases h
    · rintro ⟨hmin, hmax, -⟩
      rcases h1 with h | h
      · exact absurd hmin (not_le.mpr h)
      · exact absurd hmax (not_le.mpr h)
    · rintro st e m h
      cases h
      exact ⟨rfl, rfl⟩
  · rw [if_neg h1]
    push_neg at h1
    rw [if_neg (not_lt.mpr h1.2), if_neg (not_lt.mpr h1.1)]
    have hpos : (0 : Rat) < mkRat 1 10000 := by norm_num [mkRat, Rat.normalize]
    rw [if_neg (not_le.mpr (lt_of_lt_of_le hpos h1.1))]
    by_cases h5 : upTok req.baseToken ∈ validTokens ∧ upTok req.quoteToken ∈ validTokens
    · rw [if_neg (not_not.mpr h5)]
      by_cases h6 : upTok req.baseToken = upTok req.quoteToken
      · rw [if_pos h6]
        refine ⟨iff_of_false ?_ ?_, ?_⟩
        · rintro ⟨o, h, -⟩
          cases h
        · rintro ⟨-, -, -, -, hne⟩
          exact hne h6
        · rintro st e m h
          cases h
          exact ⟨rfl, rfl⟩
      · rw [if_neg h6]
        refine ⟨iff_of_true ⟨_, rfl, rfl, rfl, rfl, rfl⟩
          ⟨h1.1, h1.2, h5.1, h5.2, h6⟩, ?_⟩
        rintro st e m h
        cases h
    · rw [if_pos h5]
      refine ⟨iff_of_false ?_ ?_, ?_⟩
      · rintro ⟨o, h, -⟩
        cases h
      · rintro ⟨-, -, hbase, hquote, -⟩
        exact h5 ⟨hbase, hquote⟩
      · rintro st e m h
        cases h
        exact ⟨rfl, rfl⟩

/-- C7 witness: the amended theorem applied to a well-formed request. -/
theorem C7_intake_validation_witness :
    ∃ o, handleExecuteOrder goodReq "oid-2" = IntakeOutcome.accepted o 201 "queued" ∧
      o.id = "oid-2" ∧ o.status = OrderStatus.pending ∧ o.amount = goodReq.amount ∧
      pipelineEntry (handleExecuteOrder goodReq "oid-2") = some o :=
  (C7_intake_validation goodReq "oid-2").1.mpr (by decide)

/-- C8 counterexample: the request for exactly 1000000 is accepted at
intake with its amount intact, but createOrder persists the amount column
as min with 999999, so the durable record differs from the submitted
amount. -/
theorem C8_counterexample :
    handleExecuteOrder bigReq "oid-3" = IntakeOutcome.accepted bigOrder 201 "queued" ∧
    bigOrder.amount = 1000000 ∧
    (createOrder bigOrder).amount = 999999 ∧
    (createOrder bigOrder).amount ≠ bigOrder.amount := by
  decide

/-- C8 (amended): the in-memory order carried through the queue keeps the
submitted amount unmutated, while the durable row stores min of the amount
and 999999, which equals the submitted amount whenever it is at most
999999. -/
theorem C8_amount_propagation (o : Order) :
    (addOrderToQueue o).orderData.amount = o.amount ∧
    (createOrder o).amount = min o.amount 999999 ∧
    (o.amount ≤ 999999 → (createOrder o).amount = o.amount) := by
  refine ⟨rfl, rfl, fun h => ?_⟩
  simp [createOrder, min_eq_left h]

/-- C8 witness: the amended theorem applied to the sample order, whose
amount 2.5 is below the cap and therefore persists exactly. -/
theorem C8_amount_propagation_witness :
    (createOrder sampleOrder).amount = sampleOrder.amount :=
  (C8_amount_propagation sampleOrder).2.2 (by decide)

/-- C10: the updateOrderStatus transaction commits the row update and the
audit insertion together or not at all: on any failure, including a
missing order, the committed state equals the pre-transaction state of
both tables and the error is raised to the caller; on success the row is
updated and exactly one audit event is appended. -/
theorem C10_update_status_atomicity (db : DB) (oid : String)
    (st : OrderStatus) (em : Option String) (fU fI : Bool) :
    ((updateOrderStatus db oid st em fU fI).2 ≠ none →
      (updateOrderStatus db oid st em fU fI).1 = db) ∧
    (db.orders.find? (fun r => r.id = oid) = none →
      (updateOrderStatus db oid st em fU fI).2
        = some ("Order " ++ oid ++ " not found")) ∧
    (∀ row, db.orders.find? (fun r => r.id = oid) = some row →
      (updateOrderStatus db oid st em fU fI).2 = none →
      (updateOrderStatus db oid st em fU fI).1 =
        { orders := applyStatusUpdate db.orders oid st em
          events := db.events ++
            [{ orderId := oid
               eventType := "status_change"
               oldStatus := row.status
               newStatus := st
               message := em.getD ("Status changed to " ++ statusName st) }] }) := by
  rcases hfind : db.orders.find? (fun r => r.id = oid) with _ | row0
  · refine ⟨fun _ => ?_, fun _ => ?_, fun row hrow => ?_⟩
    · simp [updateOrderStatus, hfind]
    · simp [updateOrderStatus, hfind]
    · rw [hfind] at hrow
      cases hrow
  · cases fU with
    | true =>
        refine ⟨fun _ => ?_, fun hnone => ?_, fun row hrow hok => ?_⟩
        · simp [updateOrderStatus, hfind]
        · rw [hfind] at hnone
          cases hnone
        · simp [updateOrderStatus, hfind] at hok
    | false =>
        cases fI with
        | true =>
            refine ⟨fun _ => ?_, fun hnone => ?_, fun row hrow hok => ?_⟩
            · simp [updateOrderStatus, hfind]
            · rw [hfind] at hnone
              cases hnone
            · simp [updateOrderStatus, hfind] at hok
        | false =>
            refine ⟨fun hne => ?_, fun hnone => ?_, fun row hrow hok => ?_⟩
            · exact absurd (by simp [updateOrderStatus, hfind]) hne
            · rw [hfind] at hnone
              cases hnone
            · rw [hfind] at hrow
              cases hrow
              simp [updateOrderStatus, hfind]

/-- C10 witness: the theorem applied to the empty database, where the
order is missing, the transaction raises and the state is unchanged. -/
theorem C10_update_status_atomicity_witness :
    (updateOrderStatus emptyDB "oid-9" OrderStatus.failed none false false).1 = emptyDB ∧
    (updateOrderStatus emptyDB "oid-9" OrderStatus.failed none false false).2
      = some "Order oid-9 not found" :=
  ⟨(C10_update_status_atomicity emptyDB "oid-9" OrderStatus.failed none false false).1
      (by decide),
   (C10_update_status_atomicity emptyDB "oid-9" OrderStatus.failed none false false).2.1
      (by decide)⟩

/-- Helper: filtering with a pointwise weaker predicate keeps at least as
many elements. -/
theorem filter_length_mono {α : Type} (l : List α) (p q : α → Bool)
    (h : ∀ a ∈ l, p a = true → q a = true) :
    (l.filter p).length ≤ (l.filter q).length := by
  induction l with
  | nil => simp
  | cons a l ih =>
      have ih2 := ih (fun x hx hpx => h x (List.mem_cons_of_mem a hx) hpx)
      cases hp : p a with
      | true =>
          have hq : q a = true := h a (List.mem_cons_self a l) hp
          simp only [List.filter_cons, hp, hq, if_pos, List.length_cons]
          exact Nat.succ_le_succ ih2
      | false =>
          cases hq : q a with
          | true =>
              simp only [List.filter_cons, hp, hq]
              simp only [Bool.false_eq_true, if_false, if_pos, List.length_cons]
              exact Nat.le_succ_of_le ih2
          | false =>
              simp only [List.filter_cons, hp, hq]
              simpa using ih2

/-- Helper: when every recorded start is at most now, a window ending at
any later instant that still contains the instant now captures no more
starts than the window ending at now. -/
theorem startsInWindow_mono (starts : List Nat) (now t dur : Nat)
    (hb : ∀ s ∈ starts, s ≤ now) (hnt : now ≤ t) :
    startsInWindow starts t dur ≤ startsInWindow starts now dur := by
  apply filter_length_mono
  intro s hs hp
  simp only [decide_eq_true_eq] at hp ⊢
  exact ⟨hb s hs, lt_of_le_of_lt hnt hp.2⟩

/-- Helper: every reachable scheduler state satisfies the inductive
invariant. -/
theorem schedInv_of_reach (opts : WorkerOpts) (σ : SchedState)
    (h : Reach opts σ) : SchedInv opts σ := by
  induction h with
  | init =>
      refine ⟨Nat.zero_le _, ?_, fun t => ?_⟩
      · intro s hs
        simp [initState] at hs
      · simp [initState, startsInWindow]
  | @step σ0 τ hreach hstep ih =>
      obtain ⟨ha, hb, hw⟩ := ih
      cases hstep with
      | start hslot hrate =>
          refine ⟨hslot, ?_, fun t => ?_⟩
          · intro s hs
            rcases List.mem_cons.mp hs with rfl | hs2
            · exact le_refl _
            · exact hb s hs2
          · show startsInWindow (σ0.now :: σ0.starts) t opts.limiterDurationMs
                ≤ opts.limiterMax
            by_cases hcond : σ0.now ≤ t ∧ t < σ0.now + opts.limiterDurationMs
            · have hsplit : startsInWindow (σ0.now :: σ0.starts) t opts.limiterDurationMs
                  = startsInWindow σ0.starts t opts.limiterDurationMs + 1 := by
                simp [startsInWindow, List.filter_cons, hcond]
              have hmono := startsInWindow_mono σ0.starts σ0.now t
                opts.limiterDurationMs hb hcond.1
              rw [hsplit]
              omega
            · have hsplit : startsInWindow (σ0.now :: σ0.starts) t opts.limiterDurationMs
                  = startsInWindow σ0.starts t opts.limiterDurationMs := by
                simp [startsInWindow, List.filter_cons, hcond]
              rw [hsplit]
              exact hw t
      | finish h0 =>
          exact ⟨le_trans (Nat.sub_le _ _) ha, hb, hw⟩
      | tick d =>
          exact ⟨ha, fun s hs => le_trans (hb s hs) (Nat.le_add_right _ _), hw⟩

/-- C9: in every reachable state of the scheduler run with the configured
worker options, at most 10 orders are simultaneously being processed (in
the Processing, Routing or Executing states), and every rolling window of
60 time-units contains at most 100 processing starts. -/
theorem C9_concurrency_and_rate (σ : SchedState) (h : Reach workerOpts σ) :
    σ.active ≤ 10 ∧
    ∀ t, startsInWindow σ.starts t (60 * timeUnitMs) ≤ 100 := by
  obtain ⟨ha, -, hw⟩ := schedInv_of_reach workerOpts σ h
  have hdur : 60 * timeUnitMs = workerOpts.limiterDurationMs := by
    norm_num [timeUnitMs, workerOpts]
  rw [hdur]
  exact ⟨ha, hw⟩

/-- C9 witness: the theorem applied to the initial state. -/
theorem C9_concurrency_and_rate_witness :
    initState.active ≤ 10 ∧
    ∀ t, startsInWindow initState.starts t (60 * timeUnitMs) ≤ 100 :=
  C9_concurrency_and_rate initState Reach.init

end OE
